import Mathlib

/-!
Verification development for the elderwise memory subsystem.

Shallow embedding of the Python sources in src/memory (controller.py,
session.py, storage.py, semantic.py), src/models/memory.py and
src/utils/scheduler.py. Python strings are modelled as lists of
characters, the Redis / MongoDB / Pinecone backends as explicit state
values with an availability flag, and Python exceptions as the
Except monad: an operation whose source can raise is Except-valued,
an operation whose source wraps its whole body in try/except returning
a default is total.
-/

set_option autoImplicit false
set_option maxRecDepth 100000

namespace Elderwise

deriving instance DecidableEq for Except

/-! ## Python string model -/

/-- A Python str, modelled as its list of characters. -/
abbrev Str := List Char

/-- Embed a Lean string literal as a Str. -/
def strOf (s : String) : Str := s.toList

/-- Python str.lower (per character). -/
def lowerStr (s : Str) : Str := s.map Char.toLower

/-- Python substring test: needle in haystack. -/
def containsSub (needle : Str) : Str → Bool
  | [] => needle.isEmpty
  | c :: t => needle.isPrefixOf (c :: t) || containsSub needle t

/-- Python any(w in text for w in ws). -/
def hasAnyWord (ws : List Str) (text : Str) : Bool :=
  ws.any (fun w => containsSub w text)

/-- Number of words of Python str.split: count of maximal runs of
non-whitespace characters. -/
def wordCount (s : Str) : Nat :=
  (s.foldl
    (fun (acc : Nat × Bool) c =>
      if c.isWhitespace then (acc.1, false)
      else if acc.2 then acc else (acc.1 + 1, true))
    ((0 : Nat), false)).1

/-! ## Significance classifier (controller.py 181-231): pure functions -/

/-- Keyword set of MemoryController._is_significant_interaction. -/
def significantKeywords : List Str :=
  ["medication", "pain", "feel", "doctor", "appointment", "family",
   "remember", "forgot", "worried", "happy", "sad", "lonely"].map String.toList

/-- MemoryController._is_significant_interaction (controller.py 181-195). -/
def isSignificantInteraction (userMessage aiResponse : Str) : Bool :=
  let combinedText := lowerStr (userMessage ++ strOf " " ++ aiResponse)
  let hasKeywords := hasAnyWord significantKeywords combinedText
  let isSubstantial := decide (wordCount userMessage > 10) || decide (wordCount aiResponse > 20)
  hasKeywords || isSubstantial

def healthWords : List Str :=
  ["medication", "pill", "doctor", "pain", "hurt"].map String.toList

def emotionWords : List Str :=
  ["feel", "sad", "happy", "lonely", "worried"].map String.toList

def eventWords : List Str :=
  ["remember", "forgot", "yesterday", "last week"].map String.toList

def preferenceWords : List Str :=
  ["like", "enjoy", "prefer", "favorite"].map String.toList

/-- MemoryController._classify_interaction_type (controller.py 197-210):
first matching keyword bucket wins, in source order. -/
def classifyInteractionType (userMessage : Str) : String :=
  let messageLower := lowerStr userMessage
  if hasAnyWord healthWords messageLower then "health"
  else if hasAnyWord emotionWords messageLower then "emotion"
  else if hasAnyWord eventWords messageLower then "event"
  else if hasAnyWord preferenceWords messageLower then "preference"
  else "interaction"

def healthTerms : List Str :=
  ["medication", "doctor", "pain", "appointment", "symptom"].map String.toList

def emotionTerms : List Str :=
  ["happy", "sad", "worried", "anxious", "lonely"].map String.toList

def dailyWords : List Str :=
  ["today", "morning", "evening"].map String.toList

def memoryWords : List Str :=
  ["yesterday", "last week", "remember"].map String.toList

/-- MemoryController._extract_tags (controller.py 212-231). The final
Python list(set(tags)) is modelled as List.dedup: the set iteration
order is unspecified, only membership is observable. -/
def extractTags (userMessage aiResponse : Str) : List Str :=
  let combinedText := lowerStr (userMessage ++ strOf " " ++ aiResponse)
  let tags :=
    healthTerms.filter (fun t => containsSub t combinedText)
    ++ emotionTerms.filter (fun t => containsSub t combinedText)
    ++ (if hasAnyWord dailyWords combinedText then [strOf "daily"] else [])
    ++ (if hasAnyWord memoryWords combinedText then [strOf "memory"] else [])
  tags.dedup

/-! ## Data model (models/memory.py)

The created_at / updated_at defaults of UserProfile (clock reads at
construction time) are not observed by any claim and are omitted. -/

structure UserProfile where
  user_id : Str
  name : Str
  age : Nat
  conditions : List Str
  interests : List Str
deriving DecidableEq

structure MemoryFragment where
  user_id : Str
  timestamp : Nat
  type : String
  content : Str
  tags : List Str
  embedding_id : Option Nat := none
  retention : String := "active"
  metadata : List (String × Str) := []
deriving DecidableEq

structure InteractionLog where
  user_id : Str
  session_id : Str
  timestamp : Nat
  user_message : Str
  ai_response : Str
deriving DecidableEq

/-! ## Session cache (session.py)

The Redis list behind one session key. An entry is an Option: none
models a stored blob that json.loads cannot decode (such entries are
skipped on read); add_interaction always pushes a decodable record.
The TTL reset (expire) is a clock effect not observed by any claim. -/

structure SessionInteraction where
  timestamp : Str
  user : Str
  ai : Str
deriving DecidableEq

abbrev RedisItem := Option SessionInteraction

inductive RedisState where
  | up (items : List RedisItem)
  | down
deriving DecidableEq

/-- Redis sequence semantics of the index pair (-n, -1), used by both
LTRIM and LRANGE in session.py: the last n items for n >= 1; for n = 0
Python negation gives -0 = 0, so the pair (0, -1) selects the whole
list. -/
def ltrimLast {α : Type} (n : Nat) (l : List α) : List α :=
  if n = 0 then l else l.drop (l.length - n)

/-- SessionManager.add_interaction (session.py 19-41): rpush the record,
ltrim to the configured limit, reset the TTL; on backend failure the
exception is logged and re-raised. -/
def addInteraction (contextLimit : Nat) (st : RedisState)
    (nowIso userMessage aiResponse : Str) : Except Unit RedisState :=
  match st with
  | .down => .error ()
  | .up items =>
      .ok (.up (ltrimLast contextLimit
        (items ++ [some ⟨nowIso, userMessage, aiResponse⟩])))

/-- The effective limit of get_recent_interactions: Python
limit or settings.memory_context_limit, where both None and 0 are falsy. -/
def effectiveLimit (contextLimit : Nat) : Option Nat → Nat
  | none => contextLimit
  | some 0 => contextLimit
  | some (n + 1) => n + 1

/-- SessionManager.get_recent_interactions (session.py 43-62): LRANGE of
the last limit items, skipping undecodable entries; any backend failure
is caught and yields the empty list. -/
def getRecentInteractions (contextLimit : Nat) (st : RedisState)
    (limit : Option Nat) : List SessionInteraction :=
  match st with
  | .down => []
  | .up items => (ltrimLast (effectiveLimit contextLimit limit) items).filterMap id

/-- The transcript lines of one interaction in format_recent_context. -/
def formatInteractionLines (i : SessionInteraction) : List Str :=
  [strOf "[" ++ i.timestamp ++ strOf "]",
   strOf "User: " ++ i.user,
   strOf "AI: " ++ i.ai,
   []]

/-- SessionManager.format_recent_context (session.py 74-92). -/
def formatRecentContext (contextLimit : Nat) (st : RedisState) : Str :=
  let interactions := getRecentInteractions contextLimit st none
  if interactions.isEmpty then strOf "No recent interactions."
  else List.intercalate (strOf "\n") ((interactions.map formatInteractionLines).flatten)

/-- The session list contents after a sequence of add_interaction calls
against a reachable backend, starting from an empty key. -/
def runSession (contextLimit : Nat) (inters : List SessionInteraction) :
    List RedisItem :=
  inters.foldl (fun items i => ltrimLast contextLimit (items ++ [some i])) []

/-! ## Fragment store (storage.py)

The MongoDB collections behind MemoryStorage, with a reachability flag:
when up is false every collection operation raises. Stored fragments
are snapshots taken at insert_one time, keyed by the generated id. -/

structure MongoState where
  fragments : List (Nat × MemoryFragment)
  logs : List InteractionLog
  nextId : Nat
  up : Bool
deriving DecidableEq

/-- MemoryStorage.store_memory_fragment (storage.py 53-62): insert_one of
the model dump; a backend failure is logged and re-raised. -/
def storeMemoryFragment (st : MongoState) (fragment : MemoryFragment) :
    Except Unit (Nat × MongoState) :=
  if st.up then
    .ok (st.nextId,
      { st with fragments := st.fragments ++ [(st.nextId, fragment)],
                nextId := st.nextId + 1 })
  else .error ()

/-- MemoryStorage.archive_old_memories (storage.py 100-118): update_many
setting retention to archive on active fragments older than the cutoff
(now minus memory_active_days); returns the modified count; any failure
is caught and yields 0. Time is modelled as Nat units. -/
def archiveOldMemories (memoryActiveDays now : Nat) (st : MongoState) :
    Nat × MongoState :=
  if st.up then
    let cutoff := now - memoryActiveDays
    let matchesP := fun (p : Nat × MemoryFragment) =>
      p.2.retention == "active" && decide (p.2.timestamp < cutoff)
    (st.fragments.countP matchesP,
     { st with fragments := st.fragments.map (fun p =>
         if matchesP p then (p.1, { p.2 with retention := "archive" }) else p) })
  else (0, st)

/-- MemoryStorage.get_user_statistics (storage.py 130-162), returning the
Python dict as a key/value list. Any failure of the underlying count or
find reads is caught and yields the empty dict. -/
def getUserStatistics (st : MongoState) (userId : Str) :
    List (String × Option Nat) :=
  if st.up then
    let activeCount := st.fragments.countP
      (fun p => p.2.user_id == userId && p.2.retention == "active")
    let archiveCount := st.fragments.countP
      (fun p => p.2.user_id == userId && p.2.retention == "archive")
    let interactionCount := st.logs.countP (fun l => l.user_id == userId)
    let lastInteraction :=
      ((st.logs.filter (fun l => l.user_id == userId)).map
        (fun l => l.timestamp)).max?
    [("active_memories", some activeCount),
     ("archived_memories", some archiveCount),
     ("total_interactions", some interactionCount),
     ("last_interaction", lastInteraction)]
  else []

/-! ## Semantic index (semantic.py)

Embedding vectors are opaque numeric lists; the embedding function is a
parameter (external service, deterministic per the interface contract).
The uuid4 vector id is modelled as a fresh-counter id. -/

abbrev Vec := List Int

/-- The metadata stored with a vector by SemanticMemory.store_memory_vector:
the fixed keys (user_id, content preview, timestamp) merged with the
metadata dict the controller passes (type, tags, retention, fragment_id). -/
structure VectorMetadata where
  user_id : Str
  content : Str
  timestamp : Str
  type : String
  tags : List Str
  retention : String
  fragment_id : Option Nat
deriving DecidableEq

structure SemanticEntry where
  id : Nat
  embedding : Vec
  metadata : VectorMetadata
deriving DecidableEq

structure PineconeState where
  vectors : List SemanticEntry
  nextId : Nat
  reachable : Bool
deriving DecidableEq

/-- SemanticMemory.store_memory_vector (semantic.py 21-47): embed the full
content, truncate the content to 1000 characters only in the stored
metadata, upsert under a fresh id; a failure is logged and re-raised. -/
def storeMemoryVector (embed : Str → Vec) (st : PineconeState)
    (userId content : Str) (mType : String) (mTags : List Str)
    (mRetention : String) (mFragmentId : Option Nat) (nowIso : Str) :
    Except Unit (Nat × PineconeState) :=
  if st.reachable then
    let embedding := embed content
    let vectorId := st.nextId
    let vectorMetadata : VectorMetadata :=
      { user_id := userId, content := content.take 1000, timestamp := nowIso,
        type := mType, tags := mTags, retention := mRetention,
        fragment_id := mFragmentId }
    .ok (vectorId,
      { st with vectors := st.vectors ++ [⟨vectorId, embedding, vectorMetadata⟩],
                nextId := st.nextId + 1 })
  else .error ()

/-- SemanticMemory.update_memory_retention (semantic.py 88-110):
fetch-then-rewrite of the retention metadata for the given ids; ids not
present are skipped; failures are caught and logged. Defined because the
spec names it as the sync mechanism; note that no caller in the
repository invokes it. -/
def updateMemoryRetention (st : PineconeState) (vectorIds : List Nat)
    (retention : String) : PineconeState :=
  if st.reachable then
    { st with vectors := st.vectors.map (fun e =>
        if vectorIds.contains e.id then
          { e with metadata := { e.metadata with retention := retention } }
        else e) }
  else st

/-! ## Memory controller (controller.py)

The four context sources of assemble_context are modelled as the
responses the backends give to this call: a GatherEnv holds, for each
read, either the returned value or a raised backend error. Each wrapper
handles its own failure exactly as its source does. -/

/-- One match returned by the Pinecone index.query call. -/
structure PineconeMatch where
  id : Nat
  score : Int
  metadata : VectorMetadata
deriving DecidableEq

/-- A formatted search result of SemanticMemory.search_memories. -/
structure SemanticMatch where
  id : Nat
  score : Int
  content : Str
  timestamp : Str
  tags : List Str
  type : String
deriving DecidableEq

structure GatherEnv where
  profileDoc : Except Unit (Option UserProfile)
  sessionState : RedisState
  queryResult : Except Unit (List PineconeMatch)
  activeDocs : Except Unit (List MemoryFragment)

/-- MemoryStorage.get_user_profile (storage.py 26-37): any failure is
caught and yields None. -/
def getUserProfile (env : GatherEnv) : Option UserProfile :=
  match env.profileDoc with
  | .error _ => none
  | .ok p => p

/-- SemanticMemory.search_memories (semantic.py 49-86): format the query
matches; any failure is caught and yields the empty list. -/
def searchMemories (env : GatherEnv) : List SemanticMatch :=
  match env.queryResult with
  | .error _ => []
  | .ok ms => ms.map (fun m =>
      { id := m.id, score := m.score, content := m.metadata.content,
        timestamp := m.metadata.timestamp, tags := m.metadata.tags,
        type := m.metadata.type })

/-- MemoryStorage.get_active_memories (storage.py 64-79): the backend
response to the active-retention query; any failure is caught and yields
the empty list. -/
def getActiveMemories (env : GatherEnv) : List MemoryFragment :=
  match env.activeDocs with
  | .error _ => []
  | .ok l => l

/-- Rendering of a fragment timestamp in _format_context
(strftime, a clock-format detail no claim observes). -/
def renderTimestamp (t : Nat) : Str := strOf (toString t)

/-- Rendering of a relevance score in _format_context. The source formats
a float with two decimals; scores are modelled as integers and no claim
observes this text (every claim exercises the empty-memories branch). -/
def renderScore (s : Int) : Str := strOf (toString s)

def primingText : Str := strOf "You are a caring AI companion supporting an elderly user. You have persistent memory and should respond as if you genuinely remember past conversations and care about their wellbeing."

def instructionsText : Str := strOf "Instructions:\n- Respond naturally and empathetically\n- Reference relevant past information when appropriate\n- Show that you remember and care about their situation\n- Be supportive and encouraging\n- If health concerns are mentioned, gently suggest consulting healthcare providers\n- Keep responses conversational and warm"

/-- The profile section of _format_context (controller.py 90-94). -/
def profileText (p : UserProfile) : Str :=
  strOf "User Profile:\nName: " ++ p.name
  ++ strOf "\nAge: " ++ strOf (toString p.age)
  ++ strOf "\nHealth Conditions: "
  ++ (if p.conditions.isEmpty then strOf "None recorded"
      else List.intercalate (strOf ", ") p.conditions)
  ++ strOf "\nInterests: "
  ++ (if p.interests.isEmpty then strOf "None recorded"
      else List.intercalate (strOf ", ") p.interests)

/-- The recent-conversation section of _format_context (controller.py 97-98). -/
def interactionsText (recentInteractions : Str) : Str :=
  strOf "Recent Conversation History:\n"
  ++ (if recentInteractions.isEmpty
      then strOf "This is our first conversation today."
      else recentInteractions)

/-- The relevant-memories section of _format_context (controller.py 101-106). -/
def memoriesText (relevantMemories : List SemanticMatch) : Str :=
  strOf "Relevant Long-term Memories:"
  ++ (if relevantMemories.isEmpty
      then strOf "\nNo specific relevant memories found."
      else ((relevantMemories.take 3).map (fun m =>
        strOf "\n- " ++ m.content ++ strOf " (Relevance: "
        ++ renderScore m.score ++ strOf ")")).flatten)

/-- The recent-events section of _format_context (controller.py 109-115). -/
def eventsText (recentFragments : List MemoryFragment) : Str :=
  strOf "Recent Events and Context:"
  ++ (if recentFragments.isEmpty
      then strOf "\nNo recent events recorded."
      else ((recentFragments.take 5).map (fun f =>
        strOf "\n- [" ++ renderTimestamp f.timestamp ++ strOf "] "
        ++ f.content)).flatten)

/-- MemoryController._format_context (controller.py 84-138). -/
def formatContext (p : UserProfile) (recentInteractions : Str)
    (relevantMemories : List SemanticMatch)
    (recentFragments : List MemoryFragment) (userMessage : Str) : Str :=
  primingText ++ strOf "\n\n"
  ++ profileText p ++ strOf "\n\n"
  ++ interactionsText recentInteractions ++ strOf "\n\n"
  ++ memoriesText relevantMemories ++ strOf "\n\n"
  ++ eventsText recentFragments
  ++ strOf "\n\nCurrent Message: \"" ++ userMessage ++ strOf "\"\n\n"
  ++ instructionsText

/-- The synthetic profile substituted when no profile exists
(controller.py 34-40). -/
def syntheticProfile (userId : Str) : UserProfile :=
  { user_id := userId, name := strOf "Friend", age := 0,
    conditions := [], interests := [] }

/-- The model dump of the user profile in the returned bundle: the full
dump on the normal path, or the two-key dict of the degraded path. -/
inductive ProfileDump where
  | full (p : UserProfile)
  | minimal (userId name : Str)
deriving DecidableEq

structure ContextBundle where
  user_profile : ProfileDump
  recent_interactions : Str
  relevant_memories : List SemanticMatch
  recent_fragments : List MemoryFragment
  context_string : Str
deriving DecidableEq

/-- The bundle returned by the except branch of assemble_context
(controller.py 73-82). -/
def degradedBundle (userId userMessage : Str) : ContextBundle :=
  { user_profile := .minimal userId (strOf "Friend"),
    recent_interactions := [],
    relevant_memories := [],
    recent_fragments := [],
    context_string := strOf "User says: " ++ userMessage }

/-- The try block of MemoryController.assemble_context (controller.py
29-71). Every gather step handles its own backend failure (None, empty
list or sentinel string), so no step of the body raises. -/
def assembleContextTry (contextLimit : Nat) (env : GatherEnv)
    (userId userMessage : Str) : Except Unit ContextBundle :=
  let userProfile :=
    match getUserProfile env with
    | none => syntheticProfile userId
    | some p => p
  let recentInteractions := formatRecentContext contextLimit env.sessionState
  let relevantMemories := searchMemories env
  let recentFragments := getActiveMemories env
  let contextString := formatContext userProfile recentInteractions
    relevantMemories recentFragments userMessage
  .ok { user_profile := .full userProfile,
        recent_interactions := recentInteractions,
        relevant_memories := relevantMemories,
        recent_fragments := recentFragments,
        context_string := contextString }

/-- MemoryController.assemble_context (controller.py 18-82): the try
body, with the except branch returning the degraded bundle. -/
def assembleContext (contextLimit : Nat) (env : GatherEnv)
    (userId userMessage : Str) : ContextBundle :=
  match assembleContextTry contextLimit env userId userMessage with
  | .ok b => b
  | .error _ => degradedBundle userId userMessage

/-- The memory fragment built by store_interaction for a significant
exchange (controller.py 149-156). -/
def mkFragment (userId : Str) (now : Nat) (userMessage aiResponse : Str) :
    MemoryFragment :=
  { user_id := userId, timestamp := now,
    type := classifyInteractionType userMessage,
    content := strOf "User: " ++ userMessage ++ strOf "\nAI: " ++ aiResponse,
    tags := extractTags userMessage aiResponse,
    retention := "active" }

/-- The backend states store_interaction leaves behind, plus the local
fragment object of the call (which the source mutates after persisting
it and then discards). -/
structure StoreState where
  redis : RedisState
  mongo : MongoState
  pine : PineconeState
  localFragment : Option MemoryFragment
deriving DecidableEq

/-- MemoryController.store_interaction (controller.py 140-179). The
context_used and response_time_ms parameters of the source are accepted
and never used by its body, and are omitted here. Each failing callee
raises (Except), and the catch-ation of the outer try/except turns every
failure into a normal return with the error only logged (the Bool). -/
def storeInteraction (contextLimit : Nat) (embed : Str → Vec)
    (mongo : MongoState) (pine : PineconeState) (redis : RedisState)
    (userId userMessage aiResponse : Str) (now : Nat) (nowIso : Str) :
    Except Unit (StoreState × Bool) :=
  match addInteraction contextLimit redis nowIso userMessage aiResponse with
  | .error _ =>
      .ok ({ redis := redis, mongo := mongo, pine := pine,
             localFragment := none }, true)
  | .ok redis2 =>
      if isSignificantInteraction userMessage aiResponse then
        let fragment := mkFragment userId now userMessage aiResponse
        match storeMemoryFragment mongo fragment with
        | .error _ =>
            .ok ({ redis := redis2, mongo := mongo, pine := pine,
                   localFragment := none }, true)
        | .ok (fragmentId, mongo2) =>
            match storeMemoryVector embed pine userId fragment.content
                fragment.type fragment.tags fragment.retention
                (some fragmentId) nowIso with
            | .error _ =>
                .ok ({ redis := redis2, mongo := mongo2, pine := pine,
                       localFragment := none }, true)
            | .ok (vectorId, pine2) =>
                .ok ({ redis := redis2, mongo := mongo2, pine := pine2,
                       localFragment :=
                         some { fragment with embedding_id := some vectorId } },
                     false)
      else
        .ok ({ redis := redis2, mongo := mongo, pine := pine,
               localFragment := none }, false)

/-! ## Retention scheduler (scheduler.py) -/

/-- MemoryScheduler.archive_memories (scheduler.py 50-64): archives in
MongoDB; the Pinecone retention update is a TODO in the source, so the
semantic index state is returned unchanged. -/
def archiveMemoriesJob (memoryActiveDays now : Nat)
    (mongo : MongoState) (pine : PineconeState) :
    Nat × MongoState × PineconeState :=
  let result := archiveOldMemories memoryActiveDays now mongo
  (result.1, result.2, pine)


/-! ## Concrete states and environments used by the theorems -/

/-- All four context sources reachable and empty: no profile document,
empty session key, no vector matches, no stored fragments. -/
def emptyReachableEnv : GatherEnv :=
  { profileDoc := .ok none, sessionState := .up [],
    queryResult := .ok [], activeDocs := .ok [] }

/-- All four context sources raising a backend error. -/
def failAllEnv : GatherEnv :=
  { profileDoc := .error (), sessionState := .down,
    queryResult := .error (), activeDocs := .error () }

def demoEmbed : Str → Vec := fun s => [(s.length : Int)]

def demoUserMsg : Str := strOf "I forgot to take my blood pressure medication"

def demoAiResp : Str := strOf "Please remember to take it"

def demoMongo : MongoState := { fragments := [], logs := [], nextId := 0, up := true }

def demoPine : PineconeState := { vectors := [], nextId := 0, reachable := true }

def downMongo : MongoState := { fragments := [], logs := [], nextId := 0, up := false }

/-- An active fragment old enough to be archived, linked to vector 0. -/
def c4Fragment : MemoryFragment :=
  { user_id := strOf "u1", timestamp := 0, type := "interaction",
    content := strOf "c", tags := [], embedding_id := some 0,
    retention := "active", metadata := [] }

def c4Mongo : MongoState :=
  { fragments := [(0, c4Fragment)], logs := [], nextId := 1, up := true }

/-- The metadata of the semantic entry created alongside c4Fragment. -/
def c4Metadata : VectorMetadata :=
  { user_id := strOf "u1", content := strOf "c",
    timestamp := strOf "t", type := "interaction", tags := [],
    retention := "active", fragment_id := some 0 }

/-- The semantic entry created alongside c4Fragment, still active. -/
def c4Entry : SemanticEntry :=
  { id := 0, embedding := [0], metadata := c4Metadata }

def c4Pine : PineconeState :=
  { vectors := [c4Entry], nextId := 1, reachable := true }

def demoInteraction : SessionInteraction :=
  { timestamp := strOf "t1", user := strOf "Hi", ai := strOf "Hello" }

/-! ### Lemmas about containsSub -/

theorem isPrefixOf_append_self (n post : Str) : n.isPrefixOf (n ++ post) = true := by
  induction n with
  | nil => simp [List.isPrefixOf]
  | cons c t ih => simp [List.isPrefixOf, ih]

theorem isPrefixOf_exists {n h : Str} (hp : n.isPrefixOf h = true) :
    ∃ t, h = n ++ t := by
  induction n generalizing h with
  | nil => exact ⟨h, rfl⟩
  | cons c t ih =>
    cases h with
    | nil => simp [List.isPrefixOf] at hp
    | cons d h2 =>
      simp only [List.isPrefixOf, Bool.and_eq_true, beq_iff_eq] at hp
      obtain ⟨rfl, hp2⟩ := hp
      obtain ⟨t2, rfl⟩ := ih hp2
      exact ⟨t2, rfl⟩

/-- Soundness and completeness of the substring test: containsSub matches
the Python semantics of needle in haystack. -/
theorem containsSub_iff (n h : Str) :
    containsSub n h = true ↔ ∃ s t, h = s ++ n ++ t := by
  induction h with
  | nil =>
    simp only [containsSub, List.isEmpty_iff]
    constructor
    · rintro rfl; exact ⟨[], [], rfl⟩
    · rintro ⟨s, t, hst⟩
      rcases List.append_eq_nil.mp (List.append_eq_nil.mp hst.symm).1 with ⟨-, h2⟩
      exact h2
  | cons c h2 ih =>
    simp only [containsSub, Bool.or_eq_true]
    constructor
    · rintro (hp | hc)
      · obtain ⟨t, ht⟩ := isPrefixOf_exists hp
        exact ⟨[], t, by simpa using ht⟩
      · obtain ⟨s, t, rfl⟩ := ih.mp hc
        exact ⟨c :: s, t, rfl⟩
    · rintro ⟨s, t, hst⟩
      cases s with
      | nil =>
        left
        have : c :: h2 = n ++ t := by simpa using hst
        rw [this]
        exact isPrefixOf_append_self n t
      | cons d s2 =>
        right
        refine ih.mpr ⟨s2, t, ?_⟩
        have := hst
        simp only [List.cons_append] at this
        exact (List.cons_eq_cons.mp this).2

theorem containsSub_of_eq_append {n h s t : Str} (he : h = s ++ n ++ t) :
    containsSub n h = true :=
  (containsSub_iff n h).mpr ⟨s, t, he⟩

theorem containsSub_append_of_left {n x : Str} (y : Str)
    (hx : containsSub n x = true) : containsSub n (x ++ y) = true := by
  obtain ⟨s, t, rfl⟩ := (containsSub_iff n x).mp hx
  exact containsSub_of_eq_append (s := s) (t := t ++ y) (by simp)

theorem containsSub_append_of_right {n y : Str} (x : Str)
    (hy : containsSub n y = true) : containsSub n (x ++ y) = true := by
  obtain ⟨s, t, rfl⟩ := (containsSub_iff n y).mp hy
  exact containsSub_of_eq_append (s := x ++ s) (t := t) (by simp)

theorem containsSub_self (n : Str) : containsSub n n = true :=
  containsSub_of_eq_append (s := []) (t := []) (by simp)


/-- runSession steps exactly as add_interaction does on a reachable backend. -/
theorem addInteraction_up (contextLimit : Nat) (items : List RedisItem)
    (t u a : Str) :
    addInteraction contextLimit (.up items) t u a
      = .ok (.up (ltrimLast contextLimit (items ++ [some ⟨t, u, a⟩]))) := rfl

theorem ltrimLast_suffix {α : Type} (n : Nat) (l : List α) :
    ltrimLast n l <:+ l := by
  unfold ltrimLast
  split
  · exact List.suffix_rfl
  · exact List.drop_suffix _ _

theorem ltrimLast_length_le {α : Type} (n : Nat) (l : List α) (h : 1 ≤ n) :
    (ltrimLast n l).length ≤ n := by
  unfold ltrimLast
  rw [if_neg (by omega)]
  simp only [List.length_drop]
  omega

theorem suffix_append_right {α : Type} {l₁ l₂ : List α} (t : List α)
    (h : l₁ <:+ l₂) : l₁ ++ t <:+ l₂ ++ t := by
  obtain ⟨p, rfl⟩ := h
  exact ⟨p, by simp⟩

theorem runSession_suffix_aux (contextLimit : Nat)
    (inters : List SessionInteraction) :
    ∀ (items pre : List RedisItem), items <:+ pre →
      inters.foldl (fun items i => ltrimLast contextLimit (items ++ [some i])) items
        <:+ pre ++ inters.map some := by
  induction inters with
  | nil => intro items pre h; simpa using h
  | cons i is ih =>
    intro items pre h
    have h1 : ltrimLast contextLimit (items ++ [some i]) <:+ pre ++ [some i] :=
      (ltrimLast_suffix _ _).trans (suffix_append_right _ h)
    have h2 := ih (ltrimLast contextLimit (items ++ [some i])) (pre ++ [some i]) h1
    simpa [List.append_assoc] using h2

/-- The session list is always a suffix of the pushed sequence: trimming
keeps the newest records and never reorders the rest. -/
theorem runSession_suffix (contextLimit : Nat)
    (inters : List SessionInteraction) :
    runSession contextLimit inters <:+ inters.map some := by
  simpa using runSession_suffix_aux contextLimit inters [] [] List.nil_suffix

theorem runSession_length_aux (contextLimit : Nat) (hcl : 1 ≤ contextLimit)
    (inters : List SessionInteraction) :
    ∀ items : List RedisItem, items.length ≤ contextLimit →
      (inters.foldl (fun items i => ltrimLast contextLimit (items ++ [some i])) items).length
        ≤ contextLimit := by
  induction inters with
  | nil => intro items h; simpa using h
  | cons i is ih =>
    intro items h
    exact ih _ (ltrimLast_length_le _ _ hcl)

/-- With a positive configured limit, the session list never exceeds it. -/
theorem runSession_length_le (contextLimit : Nat) (hcl : 1 ≤ contextLimit)
    (inters : List SessionInteraction) :
    (runSession contextLimit inters).length ≤ contextLimit :=
  runSession_length_aux contextLimit hcl inters [] (by simp)

theorem effectiveLimit_pos (contextLimit K : Nat) (h : 1 ≤ K) :
    effectiveLimit contextLimit (some K) = K := by
  cases K with
  | zero => omega
  | succ n => rfl

/-- A suffix of a list of decodable records decodes to a suffix of the
underlying records. -/
theorem filterMap_id_suffix_of_suffix_map_some
    {l : List RedisItem} {inters : List SessionInteraction}
    (h : l <:+ inters.map some) : l.filterMap id <:+ inters := by
  obtain ⟨p, hp⟩ := h
  have hl : l = (inters.map some).drop p.length := by
    rw [← hp]; simp
  have hl2 : l = (inters.drop p.length).map some := by
    rw [hl, List.map_drop]
  have h3 : ∀ x : List SessionInteraction, (x.map some).filterMap id = x :=
    fun x => by simp
  rw [hl2, h3]
  exact List.drop_suffix _ _


/-! ## Supporting lemmas for the controller theorems -/

theorem getRecentInteractions_up_nil (cl : Nat) (lim : Option Nat) :
    getRecentInteractions cl (.up []) lim = [] := by
  simp [getRecentInteractions, ltrimLast]

theorem formatRecentContext_up_nil (cl : Nat) :
    formatRecentContext cl (.up []) = strOf "No recent interactions." := by
  simp [formatRecentContext, getRecentInteractions_up_nil]

theorem formatRecentContext_down (cl : Nat) :
    formatRecentContext cl .down = strOf "No recent interactions." := rfl

theorem containsSub_formatContext_profile {t : Str} (p : UserProfile)
    (r : Str) (m : List SemanticMatch) (f : List MemoryFragment) (msg : Str)
    (h : containsSub t (profileText p) = true) :
    containsSub t (formatContext p r m f msg) = true := by
  unfold formatContext
  apply containsSub_append_of_left
  apply containsSub_append_of_left
  apply containsSub_append_of_left
  apply containsSub_append_of_left
  apply containsSub_append_of_left
  apply containsSub_append_of_left
  apply containsSub_append_of_left
  apply containsSub_append_of_left
  apply containsSub_append_of_left
  apply containsSub_append_of_left
  exact containsSub_append_of_right _ h

theorem containsSub_formatContext_interactions {t : Str} (p : UserProfile)
    (r : Str) (m : List SemanticMatch) (f : List MemoryFragment) (msg : Str)
    (h : containsSub t (interactionsText r) = true) :
    containsSub t (formatContext p r m f msg) = true := by
  unfold formatContext
  apply containsSub_append_of_left
  apply containsSub_append_of_left
  apply containsSub_append_of_left
  apply containsSub_append_of_left
  apply containsSub_append_of_left
  apply containsSub_append_of_left
  apply containsSub_append_of_left
  apply containsSub_append_of_left
  exact containsSub_append_of_right _ h

theorem containsSub_formatContext_memories {t : Str} (p : UserProfile)
    (r : Str) (m : List SemanticMatch) (f : List MemoryFragment) (msg : Str)
    (h : containsSub t (memoriesText m) = true) :
    containsSub t (formatContext p r m f msg) = true := by
  unfold formatContext
  apply containsSub_append_of_left
  apply containsSub_append_of_left
  apply containsSub_append_of_left
  apply containsSub_append_of_left
  apply containsSub_append_of_left
  apply containsSub_append_of_left
  exact containsSub_append_of_right _ h

theorem containsSub_formatContext_events {t : Str} (p : UserProfile)
    (r : Str) (m : List SemanticMatch) (f : List MemoryFragment) (msg : Str)
    (h : containsSub t (eventsText f) = true) :
    containsSub t (formatContext p r m f msg) = true := by
  unfold formatContext
  apply containsSub_append_of_left
  apply containsSub_append_of_left
  apply containsSub_append_of_left
  apply containsSub_append_of_left
  exact containsSub_append_of_right _ h

theorem profileText_synthetic (uid : Str) :
    profileText (syntheticProfile uid)
      = strOf "User Profile:\nName: Friend\nAge: 0\nHealth Conditions: None recorded\nInterests: None recorded" := by
  show strOf "User Profile:\nName: " ++ strOf "Friend" ++ strOf "\nAge: "
    ++ strOf (toString (0 : Nat)) ++ strOf "\nHealth Conditions: "
    ++ strOf "None recorded" ++ strOf "\nInterests: "
    ++ strOf "None recorded" = _
  decide

theorem assembleContext_empty_reachable_eq (cl : Nat) (uid msg : Str) :
    (assembleContext cl emptyReachableEnv uid msg).context_string
      = formatContext (syntheticProfile uid)
          (strOf "No recent interactions.") [] [] msg := by
  simp [assembleContext, assembleContextTry, emptyReachableEnv, getUserProfile,
    searchMemories, getActiveMemories, formatRecentContext_up_nil]

/-! ## Claim theorems -/

/-- C1 (corrected): assemble_context never raises, but a failure in any
of the four gather steps does not produce the degraded bundle: each
sub-operation absorbs its own backend failure into a default value, so
the try body cannot raise and assemble_context returns the fully
formatted template. Even with all four sources failing, the context
string is the full template over the synthetic profile, the session
sentinel and empty memory lists. -/
theorem assembleContext_total_and_absorbs_failures :
    (∀ (cl : Nat) (env : GatherEnv) (uid msg : Str),
        assembleContextTry cl env uid msg
          = Except.ok (assembleContext cl env uid msg))
    ∧ (∀ (cl : Nat) (uid msg : Str),
        (assembleContext cl failAllEnv uid msg).context_string
          = formatContext (syntheticProfile uid)
              (strOf "No recent interactions.") [] [] msg) := by
  constructor
  · intro cl env uid msg; rfl
  · intro cl uid msg
    simp [assembleContext, assembleContextTry, failAllEnv, getUserProfile,
      searchMemories, getActiveMemories, formatRecentContext_down]

/-- C1 counterexample: with every gather source failing, assemble_context
does not return the degraded bundle and its context string is not
"User says: {message}". -/
theorem assembleContext_all_fail_not_degraded :
    assembleContext 10 failAllEnv (strOf "u1") (strOf "Hello")
        ≠ degradedBundle (strOf "u1") (strOf "Hello")
    ∧ (assembleContext 10 failAllEnv (strOf "u1") (strOf "Hello")).context_string
        ≠ strOf "User says: " ++ strOf "Hello" :=
  ⟨by decide, by decide⟩

/-- C2 (corrected): with all sources reachable but empty, the context is
the fully formatted template containing the profile section, the session
sentinel "No recent interactions.", "No specific relevant memories" and
"No recent events recorded". -/
theorem assembleContext_empty_reachable_sections :
    ∀ (cl : Nat) (uid msg : Str),
      (assembleContext cl emptyReachableEnv uid msg).context_string
        = formatContext (syntheticProfile uid)
            (strOf "No recent interactions.") [] [] msg
      ∧ containsSub (strOf "User Profile:")
          (assembleContext cl emptyReachableEnv uid msg).context_string = true
      ∧ containsSub (strOf "No recent interactions.")
          (assembleContext cl emptyReachableEnv uid msg).context_string = true
      ∧ containsSub (strOf "No specific relevant memories")
          (assembleContext cl emptyReachableEnv uid msg).context_string = true
      ∧ containsSub (strOf "No recent events recorded")
          (assembleContext cl emptyReachableEnv uid msg).context_string = true := by
  intro cl uid msg
  have hctx := assembleContext_empty_reachable_eq cl uid msg
  refine ⟨hctx, ?_, ?_, ?_, ?_⟩ <;> rw [hctx]
  · exact containsSub_formatContext_profile (syntheticProfile uid)
      (strOf "No recent interactions.") [] [] msg
      (by rw [profileText_synthetic uid]; decide)
  · exact containsSub_formatContext_interactions (syntheticProfile uid)
      (strOf "No recent interactions.") [] [] msg (by decide)
  · exact containsSub_formatContext_memories (syntheticProfile uid)
      (strOf "No recent interactions.") [] [] msg (by decide)
  · exact containsSub_formatContext_events (syntheticProfile uid)
      (strOf "No recent interactions.") [] [] msg (by decide)

/-- C2 counterexample: in the empty-but-reachable state the context does
not contain "first conversation today": format_recent_context returns
the non-empty sentinel, so the first-conversation branch of
_format_context never fires. -/
theorem assembleContext_empty_no_first_conversation :
    containsSub (strOf "first conversation today")
      (assembleContext 10 emptyReachableEnv (strOf "u1") (strOf "Hello")).context_string
      = false := by
  decide

/-- C3 (code bug): after a fully successful store_interaction on a
significant exchange, the fragment document persisted in the store still
has embedding_id = none, although a semantic entry carrying the fragment
id was created and the discarded local fragment object was given the
vector id. The back-fill never reaches the stored record. -/
theorem storeInteraction_embedding_id_not_persisted :
    Except.map (fun (r : StoreState × Bool) =>
        (r.1.mongo.fragments.map (fun p => p.2.embedding_id),
         r.1.pine.vectors.map (fun e => e.metadata.fragment_id),
         r.1.localFragment.bind (fun f => f.embedding_id),
         r.2))
      (storeInteraction 10 demoEmbed demoMongo demoPine (RedisState.up [])
        (strOf "u1") demoUserMsg demoAiResp 100 (strOf "2025-01-01"))
    = .ok ([none], [some 0], some 0, false) := by
  decide

/-- C4 (code bug): the archival job flips the aged fragment to archive in
the document store but never touches the semantic index (the sync is a
TODO in scheduler.py), so the matching entry keeps retention "active". -/
theorem archiveMemoriesJob_semantic_retention_stale :
    (∀ (d now : Nat) (m : MongoState) (p : PineconeState),
        (archiveMemoriesJob d now m p).2.2 = p)
    ∧ (archiveMemoriesJob 90 200 c4Mongo c4Pine).1 = 1
    ∧ ((archiveMemoriesJob 90 200 c4Mongo c4Pine).2.1.fragments.map
        (fun q => q.2.retention)) = ["archive"]
    ∧ ((archiveMemoriesJob 90 200 c4Mongo c4Pine).2.2.vectors.map
        (fun e => e.metadata.retention)) = ["active"] := by
  exact ⟨fun d now m p => rfl, by decide, by decide, by decide⟩

/-- C5 (corrected): get_user_statistics never raises, but on a backend
failure it returns the empty dict with no count fields at all (not
zeros); the four keys are present exactly when every read succeeds. -/
theorem getUserStatistics_shape :
    ∀ (st : MongoState) (uid : Str),
      (st.up = false → getUserStatistics st uid = [])
      ∧ (st.up = true →
          (getUserStatistics st uid).map Prod.fst
            = ["active_memories", "archived_memories", "total_interactions",
               "last_interaction"]) := by
  intro st uid
  constructor <;> intro h <;> simp [getUserStatistics, h]

/-- Witness for C5: evaluation at a reachable and at no store needed;
the reachable store yields exactly the four keys. -/
theorem getUserStatistics_shape_witness :
    (getUserStatistics demoMongo (strOf "u1")).map Prod.fst
      = ["active_memories", "archived_memories", "total_interactions",
         "last_interaction"] :=
  (getUserStatistics_shape demoMongo (strOf "u1")).2 rfl

/-- C5 counterexample: with the backend down, the statistics read returns
the empty dict, so it does not carry the count fields with zeros. -/
theorem getUserStatistics_failure_empty_dict :
    getUserStatistics downMongo (strOf "u1") = []
    ∧ (getUserStatistics downMongo (strOf "u1")).lookup "active_memories"
        = none := by
  exact ⟨rfl, rfl⟩

/-- C6 (confirmed): with the cache backend unavailable, the read paths
return the empty sequence (and the sentinel transcript) without failing,
while add_interaction propagates the error to its caller. -/
theorem session_read_degrades_write_propagates :
    (∀ (cl : Nat) (lim : Option Nat),
        getRecentInteractions cl RedisState.down lim = [])
    ∧ (∀ cl : Nat,
        formatRecentContext cl RedisState.down = strOf "No recent interactions.")
    ∧ (∀ (cl : Nat) (t u a : Str),
        addInteraction cl RedisState.down t u a = Except.error ()) :=
  ⟨fun _ _ => rfl, fun _ => rfl, fun _ _ _ _ => rfl⟩

/-- C7 (confirmed): storing a 2000-character content upserts an entry
whose metadata preview is exactly the first 1000 characters while the
embedding is computed on the full content. -/
theorem storeMemoryVector_truncates_preview_embeds_full :
    ∀ (embed : Str → Vec) (st : PineconeState) (userId content : Str)
      (mType : String) (mTags : List Str) (mRetention : String)
      (mFragmentId : Option Nat) (nowIso : Str),
      content.length = 2000 → st.reachable = true →
      ∃ st2, storeMemoryVector embed st userId content mType mTags mRetention
          mFragmentId nowIso = .ok (st.nextId, st2)
        ∧ ∃ e, e ∈ st2.vectors
            ∧ e.id = st.nextId
            ∧ e.metadata.content = content.take 1000
            ∧ e.metadata.content.length = 1000
            ∧ e.embedding = embed content := by
  intro embed st uid content ty tags ret fid now h2000 hup
  refine ⟨{ st with
      vectors := st.vectors ++ [⟨st.nextId, embed content,
        { user_id := uid, content := content.take 1000, timestamp := now,
          type := ty, tags := tags, retention := ret, fragment_id := fid }⟩],
      nextId := st.nextId + 1 }, ?_, ?_⟩
  · simp [storeMemoryVector, hup]
  · refine ⟨⟨st.nextId, embed content,
      { user_id := uid, content := content.take 1000, timestamp := now,
        type := ty, tags := tags, retention := ret, fragment_id := fid }⟩,
      ?_, rfl, rfl, ?_, rfl⟩
    · simp
    · simp [List.length_take, h2000]

/-- Witness for C7: a concrete 2000-character content with a concrete
embedding function and an empty reachable index. -/
theorem storeMemoryVector_truncates_witness :
    ∃ st2, storeMemoryVector (fun s => [(s.length : Int)])
        ⟨[], 0, true⟩ (strOf "u") (List.replicate 2000 'a') "health" []
        "active" (some 0) (strOf "t") = .ok (0, st2)
      ∧ ∃ e, e ∈ st2.vectors
          ∧ e.id = 0
          ∧ e.metadata.content = (List.replicate 2000 'a').take 1000
          ∧ e.metadata.content.length = 1000
          ∧ e.embedding = [((List.replicate 2000 'a').length : Int)] :=
  storeMemoryVector_truncates_preview_embeds_full
    (fun s => [(s.length : Int)]) ⟨[], 0, true⟩ (strOf "u")
    (List.replicate 2000 'a') "health" [] "active" (some 0) (strOf "t")
    (by simp) rfl

/-- C8 (corrected): with a positive configured maximum, after any
sequence of appends, reading with a positive limit K returns at most K
interactions, in insertion order (a suffix of the appended sequence),
and the stored list is itself an order-preserving suffix bounded by the
configured limit after every single append; limit 0 is excluded because
Python treats it as falsy and substitutes the configured default. -/
theorem session_append_recent_ordered_bounded :
    ∀ (cl : Nat) (inters : List SessionInteraction) (K : Nat),
      1 ≤ cl → 1 ≤ K →
      (getRecentInteractions cl (.up (runSession cl inters)) (some K)).length ≤ K
      ∧ getRecentInteractions cl (.up (runSession cl inters)) (some K) <:+ inters
      ∧ runSession cl inters <:+ inters.map some
      ∧ (runSession cl inters).length ≤ cl := by
  intro cl inters K hcl hK
  have hS := runSession_suffix cl inters
  have hrec : getRecentInteractions cl (.up (runSession cl inters)) (some K)
      = (ltrimLast K (runSession cl inters)).filterMap id := by
    simp [getRecentInteractions, effectiveLimit_pos cl K hK]
  refine ⟨?_, ?_, hS, runSession_length_le cl hcl inters⟩
  · rw [hrec]
    exact le_trans (List.length_filterMap_le _ _) (ltrimLast_length_le _ _ hK)
  · rw [hrec]
    exact filterMap_id_suffix_of_suffix_map_some
      ((ltrimLast_suffix _ _).trans hS)

/-- Witness for C8: one append then a read with limit 1. -/
theorem session_append_recent_witness :
    (getRecentInteractions 10 (.up (runSession 10 [demoInteraction]))
      (some 1)).length ≤ 1 :=
  (session_append_recent_ordered_bounded 10 [demoInteraction] 1
    (by decide) (by decide)).1

/-- C8 counterexample: with limit 0, the read falls back to the default
limit and returns one interaction, more than 0. -/
theorem getRecentInteractions_zero_limit_counterexample :
    (getRecentInteractions 10 (.up (runSession 10 [demoInteraction]))
        (some 0)).length = 1
    ∧ ¬ ((getRecentInteractions 10 (.up (runSession 10 [demoInteraction]))
        (some 0)).length ≤ 0) :=
  ⟨by decide, by decide⟩

/-- C9 (confirmed): classify applies the keyword buckets in the order
health, emotion, event, preference with first match winning and default
interaction; the blood-pressure example classifies as health and its
tags include medication. -/
theorem classify_priority_and_health_example :
    (∀ m : Str, hasAnyWord healthWords (lowerStr m) = true →
        classifyInteractionType m = "health")
    ∧ (∀ m : Str, hasAnyWord healthWords (lowerStr m) = false →
        hasAnyWord emotionWords (lowerStr m) = true →
        classifyInteractionType m = "emotion")
    ∧ (∀ m : Str, hasAnyWord healthWords (lowerStr m) = false →
        hasAnyWord emotionWords (lowerStr m) = false →
        hasAnyWord eventWords (lowerStr m) = true →
        classifyInteractionType m = "event")
    ∧ (∀ m : Str, hasAnyWord healthWords (lowerStr m) = false →
        hasAnyWord emotionWords (lowerStr m) = false →
        hasAnyWord eventWords (lowerStr m) = false →
        hasAnyWord preferenceWords (lowerStr m) = true →
        classifyInteractionType m = "preference")
    ∧ (∀ m : Str, hasAnyWord healthWords (lowerStr m) = false →
        hasAnyWord emotionWords (lowerStr m) = false →
        hasAnyWord eventWords (lowerStr m) = false →
        hasAnyWord preferenceWords (lowerStr m) = false →
        classifyInteractionType m = "interaction")
    ∧ classifyInteractionType demoUserMsg = "health"
    ∧ strOf "medication" ∈ extractTags demoUserMsg demoAiResp := by
  refine ⟨?_, ?_, ?_, ?_, ?_, by decide, by decide⟩ <;>
    (intro m; intros; simp_all [classifyInteractionType])

/-- Witness for C9: a message matching only the emotion bucket. -/
theorem classify_priority_witness :
    classifyInteractionType (strOf "I feel worried") = "emotion" :=
  classify_priority_and_health_example.2.1 (strOf "I feel worried")
    (by decide) (by decide)

/-- C10 (confirmed): store_interaction never lets an exception escape:
every failing callee (session append, fragment insert, vector upsert)
is caught by the outer handler and only logged; in particular a failed
session append still returns normally with the error merely logged. -/
theorem storeInteraction_never_raises :
    (∀ (cl : Nat) (embed : Str → Vec) (mongo : MongoState)
        (pine : PineconeState) (redis : RedisState) (uid um ar : Str)
        (now : Nat) (nowIso : Str),
        (storeInteraction cl embed mongo pine redis uid um ar now nowIso).isOk
          = true)
    ∧ (∀ (cl : Nat) (embed : Str → Vec) (mongo : MongoState)
        (pine : PineconeState) (uid um ar : Str) (now : Nat) (nowIso : Str),
        storeInteraction cl embed mongo pine RedisState.down uid um ar now nowIso
          = .ok ({ redis := RedisState.down, mongo := mongo, pine := pine,
                   localFragment := none }, true)) := by
  constructor
  · intro cl embed mongo pine redis uid um ar now nowIso
    unfold storeInteraction
    cases h1 : addInteraction cl redis nowIso um ar with
    | error e => rfl
    | ok redis2 =>
      dsimp only
      split
      · cases h2 : storeMemoryFragment mongo (mkFragment uid now um ar) with
        | error e => rfl
        | ok r =>
          obtain ⟨fragmentId, mongo2⟩ := r
          dsimp only
          cases h3 : storeMemoryVector embed pine uid
              (mkFragment uid now um ar).content
              (mkFragment uid now um ar).type
              (mkFragment uid now um ar).tags
              (mkFragment uid now um ar).retention (some fragmentId) nowIso with
          | error e => rfl
          | ok r2 =>
            obtain ⟨vectorId, pine2⟩ := r2
            rfl
      · rfl
  · intro cl embed mongo pine uid um ar now nowIso
    rfl

end Elderwise
